import Mathlib

/-!
Verification of the GLSL-to-TypeScript declaration generator
(HugoDaniel/glsl_codegen_typescript, src/api.ts).

The embedding below translates the generator into Lean:

* `GLSLVariable` is the variable-descriptor record consumed by the
  generator.  The parser collaborator hands descriptors to `generate` as
  plain objects; absent optional fields behave exactly like empty ones in
  the generator (`!variable.structName` is true for both `undefined` and
  `""`, `!variable.block || variable.block.length === 0` is true for both
  `null` and `[]`), so the embedding uses `""` for a missing `structName`
  and `[]` for a missing `block`.
* JavaScript exceptions are modelled with `Except GenError`: the two
  `throw new Error(...)` sites of `writeVariable` and the `TypeError`
  raised by `capitalize` on an empty string.
* `console.error` output of `writeInterface` is modelled as the first
  component of its result; `generate` drops it, exactly as the JS caller
  of `generate` never receives what was printed to the console.
-/

/-- JS `Array.prototype.join(sep)` on a list of strings. -/
def joinSep (sep : String) : List String → String
  | [] => ""
  | [s] => s
  | s :: rest => s ++ sep ++ joinSep sep rest

/-- The variable descriptor produced by the external parser and consumed by
`generate` (spec section 3): `name`, `qualifier` (the role), `type` (the type
tag), `amount` (the array length), `structName` (the struct alias, `""` when
absent) and `block` (the nested members, `[]` when absent). -/
inductive GLSLVariable where
  | mk (name : String) (qualifier : String) (type : String) (amount : Nat)
       (structName : String) (block : List GLSLVariable)

def GLSLVariable.name : GLSLVariable → String
  | .mk n _ _ _ _ _ => n

def GLSLVariable.qualifier : GLSLVariable → String
  | .mk _ q _ _ _ _ => q

def GLSLVariable.type : GLSLVariable → String
  | .mk _ _ t _ _ _ => t

def GLSLVariable.amount : GLSLVariable → Nat
  | .mk _ _ _ a _ _ => a

def GLSLVariable.structName : GLSLVariable → String
  | .mk _ _ _ _ s _ => s

def GLSLVariable.block : GLSLVariable → List GLSLVariable
  | .mk _ _ _ _ _ b => b

/-- The exceptions the generator can raise: the two `throw new Error(...)`
sites of `writeVariable` (each message embeds the offending variable; the
embedding keeps its name) and the `TypeError` thrown by `capitalize` when it
calls `toUpperCase` on `undefined`. -/
inductive GenError where
  | missingStructName (name : String)
  | emptyBlock (name : String)
  | jsTypeError

mutual

/-- The function `writeVariable` of src/api.ts: descriptor to declaration line.  The type
starts as `variable.type`; a `struct` type is replaced by `structName`
(throwing when it is falsy); a `block` type is replaced by the brace-wrapped
space-joined recursively written members (throwing when `block` is falsy or
empty); an `amount > 1` turns the type into a comma-joined bracketed tuple
when `amount < 5` (JS `join()` defaults to `","`) and into `type ++ "[]"`
otherwise; finally the line `name: type;` is produced. -/
def writeVariable : GLSLVariable → Except GenError String
  | .mk name _qualifier ty amount sName blk => do
    let type1 ←
      if ty == "struct" then
        if sName == "" then
          Except.error (GenError.missingStructName name)
        else
          pure sName
      else
        pure ty
    let type2 ←
      if ty == "block" then
        if blk.isEmpty then
          Except.error (GenError.emptyBlock name)
        else do
          let lines ← writeVarList blk
          pure ("\x7b " ++ joinSep " " lines ++ " \x7d")
      else
        pure type1
    let type3 :=
      if amount > 1 then
        if amount < 5 then
          "[" ++ joinSep "," (List.replicate amount type2) ++ "]"
        else
          type2 ++ "[]"
      else type2
    pure (name ++ ": " ++ type3 ++ ";")

/-- The map `variables.map(writeVariable)` with JS exception semantics: the first
throwing element aborts the whole map. -/
def writeVarList : List GLSLVariable → Except GenError (List String)
  | [] => pure []
  | v :: vs => do
    let s ← writeVariable v
    let rest ← writeVarList vs
    pure (s :: rest)

end

/-- The function `capitalize` of src/api.ts: `word[0].toUpperCase() + word.slice(1)`.
On the empty string `word[0]` is `undefined` and the `toUpperCase` call
throws a `TypeError`.  The JS `toUpperCase` on the single leading character
is modelled at the code-point level with `Char.toUpper`. -/
def capitalize (word : String) : Except GenError String :=
  match word.data with
  | [] => Except.error GenError.jsTypeError
  | c :: rest => Except.ok (String.mk (Char.toUpper c :: rest))

/-- The function `writeInterface` of src/api.ts.  A `null` or empty variable array yields
the empty string after printing `"The interface %s has no variables set"` to
the console (modelled as the first component of the result; the second
component is the returned string).  Otherwise every variable is written,
the lines are joined with `"\n\t"` and wrapped in the interface block,
optionally prefixed by `export `. -/
def writeInterface (name : String) (vars : List GLSLVariable) (isExport : Bool) :
    Except GenError (List String × String) :=
  if vars.isEmpty then
    Except.ok (["The interface " ++ name ++ " has no variables set"], "")
  else do
    let lines ← writeVarList vars
    pure ([], "\n" ++ (if isExport then "export " else "") ++ "interface " ++ name
      ++ " \x7b\n\t" ++ joinSep "\n\t" lines ++ "\n\x7d")

/-- Modelled from the spec: `isInputVariable` is imported by src/api.ts from
the external `glsl_variables` parser package, whose source is not part of
this repository.  Spec section 4.4 step 3 partitions by role, and scenarios 2
and 3 of section 8 (matched by the tests of this repository) place both plain `in`
variables and uniform-qualified variables - including uniform blocks - in the
inputs interface, so the input predicate admits the `in` and `uniform`
roles. -/
def isInputVariable (v : GLSLVariable) : Bool :=
  v.qualifier == "in" || v.qualifier == "uniform"

/-- Modelled from the spec: `isOutputVariable` is imported by src/api.ts from
the external `glsl_variables` parser package; the outputs partition holds the
descriptors whose role is `out`. -/
def isOutputVariable (v : GLSLVariable) : Bool :=
  v.qualifier == "out"

mutual

/-- Modelled from the spec: `JSON.stringify` applied to one descriptor - the
spec only requires the original descriptor list to be serialized verbatim
(structurally), so the exact built-in JSON field layout is modelled as the
descriptor fields in declaration order. -/
def jsonOfVar : GLSLVariable → String
  | .mk name qualifier ty amount sName blk =>
    "\x7b\"name\":\"" ++ name ++ "\",\"qualifier\":\"" ++ qualifier
      ++ "\",\"type\":\"" ++ ty ++ "\",\"amount\":" ++ toString amount
      ++ ",\"structName\":\"" ++ sName ++ "\",\"block\":["
      ++ joinSep "," (jsonOfVars blk) ++ "]\x7d"

/-- Serialization of a descriptor list, element by element. -/
def jsonOfVars : List GLSLVariable → List String
  | [] => []
  | v :: vs => jsonOfVar v :: jsonOfVars vs

end

/-- Modelled from the spec: `JSON.stringify` of the whole descriptor array. -/
def jsonStringify (vs : List GLSLVariable) : String :=
  "[" ++ joinSep "," (jsonOfVars vs) ++ "]"

/-- The fixed GLSL base-type catalog string of src/api.ts, verbatim. -/
def glslTypes : String :=
  "\n/**\n * The list of Basic Types.\n * Taken from Section 4.1 of the GLSL 3.00 Spec, available at:\n * https://www.khronos.org/registry/OpenGL/specs/es/3.0/GLSL_ES_Specification_3.00.pdf\n **/\n"
    ++ "\n/** A conditional type, taking on values of true or false */\ntype bool = boolean;\n/** A signed integer */\ntype int = number;\n/** An unsigned integer  */\n"
    ++ "type uint = number;\n/** A single floating-point scalar */\ntype float = number;\n/** A two-component floating-point vector */\ntype vec2 = [number, number];\n/** A three-component floating-point vector */\n"
    ++ "type vec3 = [number, number, number];\n/** A four-component floating-point vector */\ntype vec4 = [number, number, number, number];\n/** A two-component Boolean vector */\ntype bvec2 = [boolean, boolean];\n/** A three-component Boolean vector */\n"
    ++ "type bvec3 = [boolean, boolean, boolean];\n/** A four-component Boolean vector */\ntype bvec4 = [boolean, boolean, boolean, boolean];\n/** A two-component signed integer vector */\ntype ivec2 = [number, number];\n/** A three-component signed integer vector */\n"
    ++ "type ivec3 = [number, number, number];\n/** A four-component signed integer vector */\ntype ivec4 = [number, number, number, number];\n/** A two-component unsigned integer vector */\ntype uvec2 = [number, number];\n/** A three-component unsigned integer vector */\n"
    ++ "type uvec3 = [number, number, number];\n/** A four-component unsigned integer vector */\ntype uvec4 = [number, number, number, number];\n/** A 2×2 floating-point matrix */\ntype mat2 = number[];\n/** A 3×3 floating-point matrix */\n"
    ++ "type mat3 = number[];\n/** A 4×4 floating-point matrix */\ntype mat4 = number[];\n/** Same as mat2 */\ntype mat2x2 = number[];\n/** A floating-point matrix with 2 columns and 3 rows */\n"
    ++ "type mat2x3 = number[];\n/** A floating-point matrix with 2 columns and 4 rows */\ntype mat2x4 = number[];\n/** A floating-point matrix with 3 columns and 2 rows */\ntype mat3x2 = number[];\n/** Same as mat3 */\n"
    ++ "type mat3x3 = number[];\n/** A floating-point matrix with 3 columns and 4 rows */\ntype mat3x4 = number[];\n/** A floating-point matrix with 4 columns and 2 rows */\ntype mat4x2 = number[];\n/** A floating-point matrix with 3 columns and 3 rows */\n"
    ++ "type mat4x3 = number[];\n/** Same as mat4 */\ntype mat4x4 = number[];\n/** A handle for accessing a 2D texture (opaque type) */\ntype sampler2D = number;\n/** A handle for accessing a 3D texture (opaque type) */\n"
    ++ "type sampler3D = number;\n/** A handle for accessing a cube mapped texture (opaque type) */\ntype samplerCube = number;\n/** A handle for accessing a cube map depth texture with comparison (opaque \n * type)\n **/\n"
    ++ "type samplerCubeShadow = number;\n/** A handle for accessing a 2D depth texture with comparison (opaque type) */\ntype sampler2DShadow = number;\n/** A handle for accessing a 2D array texture (opaque type) */\ntype sampler2DArray = number;\n/** A handle for accessing a 2D array depth texture with comparison (opaque \n"
    ++ " * type)\n **/\ntype sampler2DArrayShadow = number;\n/** \n * A handle for accessing an integer 2D texture\n * Opaque Signed Integer Sampler Type\n"
    ++ " **/\ntype isampler2D = number;\n/** \n * A handle for accessing an integer 3D texture\n * Opaque Signed Integer Sampler Type\n **/\n"
    ++ "type isampler3D = number;\n/** \n * A handle for accessing an integer cube mapped texture\n * Opaque Signed Integer Sampler Type\n **/\ntype isamplerCube = number;\n"
    ++ "/** \n * A handle for accessing an integer 2D array texture\n * Opaque Signed Integer Sampler Type\n **/\ntype isampler2DArray = number;\n/**\n"
    ++ " * A handle for accessing an unsigned integer 2D texture\n * Opaque Unsigned Integer Sampler Type\n */\ntype usampler2D = number;\n/**\n * A handle for accessing an unsigned integer 3D texture \n"
    ++ " * Opaque Unsigned Integer Sampler Type\n **/\ntype usampler3D = number;\n/**\n * A handle for accessing an unsigned integer cube mapped texture\n * Opaque Unsigned Integer Sampler Type\n"
    ++ " */\ntype usamplerCube = number;\n/**\n * A handle for accessing an unsigned integer 2D array texture\n * Opaque Unsigned Integer Sampler Type\n */\n"
    ++ "type usampler2DArray = number;\n"

/-- The options record of `generate` with its default values
(src/api.ts lines 27-39). -/
structure Config where
  generateParseResult : Bool := true
  generateGLSLTypes : Bool := true
  inputsInterfaceName : String := "Inputs"
  outputsInterfaceName : String := "Outputs"
  interfaceName : String := "Variables"

/-- The map `structs.map((s) => writeInterface(capitalize(s.name), s.block))` with JS
exception semantics (the first throwing element aborts); only the interface
text of each element is kept. -/
def structMap : List GLSLVariable → Except GenError (List String)
  | [] => pure []
  | s :: rest => do
    let n ← capitalize s.name
    let p ← writeInterface n s.block false
    let others ← structMap rest
    pure (p.2 :: others)

/-- The struct-catalog stage of `generate`: filter the `struct`-qualified
descriptors and write one interface per struct. -/
def structStage (vars : List GLSLVariable) : Except GenError (List String) :=
  structMap (vars.filter (fun v => v.qualifier == "struct"))

/-- The function `generate` of src/api.ts, taking the already-parsed descriptor list (the
`parse` call on the shader source is the external collaborator).  Struct
interfaces, the exported inputs interface, the exported outputs interface,
the aggregate interface, the optional serialized descriptor dump and the
optional base-type catalog are concatenated in this order and wrapped in the
namespace block. -/
def generate (vars : List GLSLVariable) (ns : String) (cfg : Config) :
    Except GenError String := do
  let structTexts ← structStage vars
  let result1 := joinSep "\n" structTexts
  let inputs := vars.filter isInputVariable
  let ip ← writeInterface cfg.inputsInterfaceName inputs true
  let result2 := result1 ++ ip.2
  let outputs := vars.filter isOutputVariable
  let op ← writeInterface cfg.outputsInterfaceName outputs true
  let result3 := result2 ++ op.2
  let ioVars := cfg.inputsInterfaceName ++ "," ++ cfg.outputsInterfaceName
  let result4 := result3 ++ "\nexport interface " ++ cfg.interfaceName
    ++ " extends " ++ ioVars ++ " \x7b\x7d"
  let result5 :=
    if cfg.generateParseResult then
      result4 ++ "\nexport const vars = " ++ jsonStringify vars ++ ";\n"
    else result4
  let result6 := if cfg.generateGLSLTypes then result5 ++ glslTypes else result5
  pure ("\nnamespace " ++ ns ++ " \x7b\n" ++ result6 ++ "\n\x7d")

/-- The pure text-assembly tail of `generate`, given the three stage
results. -/
def assemble (vars : List GLSLVariable) (ns : String) (cfg : Config)
    (structTexts : List String) (itext otext : String) : String :=
  let result4 := joinSep "\n" structTexts ++ itext ++ otext
    ++ "\nexport interface " ++ cfg.interfaceName ++ " extends "
    ++ (cfg.inputsInterfaceName ++ "," ++ cfg.outputsInterfaceName) ++ " \x7b\x7d"
  let result5 :=
    if cfg.generateParseResult then
      result4 ++ "\nexport const vars = " ++ jsonStringify vars ++ ";\n"
    else result4
  let result6 := if cfg.generateGLSLTypes then result5 ++ glslTypes else result5
  "\nnamespace " ++ ns ++ " \x7b\n" ++ result6 ++ "\n\x7d"

mutual

/-- The exact failure condition of `writeVariable`: a `struct`-typed
descriptor with a falsy `structName`, or a `block`-typed descriptor whose
member list is falsy, empty or itself contains a failing member. -/
def hasWriterFault : GLSLVariable → Bool
  | .mk _ _ ty _ sName blk =>
    (ty == "struct" && sName == "") ||
    (ty == "block" && (blk.isEmpty || anyWriterFault blk))

/-- Some member of the list makes `writeVariable` fail. -/
def anyWriterFault : List GLSLVariable → Bool
  | [] => false
  | v :: vs => hasWriterFault v || anyWriterFault vs

end

/-- Substring containment, on the underlying character lists. -/
def strContains (hay needle : String) : Prop := needle.data <:+: hay.data

/-- Sample configuration with both optional outputs disabled. -/
def cfgNoExtras : Config := ⟨false, false, "Inputs", "Outputs", "Variables"⟩

/-- A `struct`-typed input descriptor without a struct alias. -/
def badStructVar : GLSLVariable := .mk "material" "in" "struct" 1 "" []

/-- A struct-role descriptor with an empty name. -/
def emptyNameStruct : GLSLVariable :=
  .mk "" "struct" "struct" 1 "Foo" [.mk "x" "" "float" 1 "" []]

/-- A block-typed descriptor with array length 2. -/
def blockArrayVar : GLSLVariable :=
  .mk "m" "uniform" "block" 2 "" [.mk "x" "" "float" 1 "" []]

/-- A uniform-qualified sampler descriptor. -/
def uniformSamplerVar : GLSLVariable := .mk "u_texture" "uniform" "sampler2D" 1 "" []

/-- A struct-role descriptor with one member. -/
def materialStruct : GLSLVariable :=
  .mk "material" "struct" "struct" 1 "" [.mk "ambient" "" "vec3" 1 "" []]
theorem generate_bind_form (vars : List GLSLVariable) (ns : String) (cfg : Config) :
    generate vars ns cfg =
      (structStage vars).bind (fun sT =>
        (writeInterface cfg.inputsInterfaceName (vars.filter isInputVariable) true).bind (fun ip =>
          (writeInterface cfg.outputsInterfaceName (vars.filter isOutputVariable) true).bind (fun op =>
            Except.ok (assemble vars ns cfg sT ip.2 op.2)))) := by
  simp only [generate, assemble, bind, Except.bind]
  cases structStage vars with
  | error e => rfl
  | ok sT =>
    cases writeInterface cfg.inputsInterfaceName (vars.filter isInputVariable) true with
    | error e => rfl
    | ok ip =>
      cases writeInterface cfg.outputsInterfaceName (vars.filter isOutputVariable) true with
      | error e => rfl
      | ok op => rfl

mutual

theorem writeVariable_isOk (v : GLSLVariable) :
    (writeVariable v).isOk = !hasWriterFault v := by
  cases v with
  | mk name q ty amount sName blk =>
    by_cases h1 : ty == "struct"
    · have hty : ty = "struct" := eq_of_beq h1
      subst hty
      by_cases h2 : sName == ""
      · simp [writeVariable, hasWriterFault, h2, bind, Except.bind, pure, Except.pure,
          Except.isOk, Except.toBool]
      · simp [writeVariable, hasWriterFault, h2, bind, Except.bind, pure, Except.pure,
          Except.isOk, Except.toBool]
    · by_cases h3 : ty == "block"
      · have hty : ty = "block" := eq_of_beq h3
        subst hty
        by_cases h4 : blk.isEmpty
        · simp [writeVariable, hasWriterFault, h4, bind, Except.bind, pure, Except.pure,
            Except.isOk, Except.toBool]
        · have hl := writeVarList_isOk blk
          cases hwl : writeVarList blk with
          | error e =>
            rw [hwl] at hl
            simp only [Except.isOk, Except.toBool, Bool.false_eq, Bool.not_eq_false] at hl
            simp [writeVariable, hasWriterFault, h4, hwl, hl, bind, Except.bind,
              pure, Except.pure, Except.isOk, Except.toBool]
          | ok lines =>
            rw [hwl] at hl
            simp only [Except.isOk, Except.toBool, Bool.true_eq, Bool.not_eq_true] at hl
            simp [writeVariable, hasWriterFault, h4, hwl, hl, bind, Except.bind,
              pure, Except.pure, Except.isOk, Except.toBool]
      · simp [writeVariable, hasWriterFault, h1, h3, bind, Except.bind, pure, Except.pure,
          Except.isOk, Except.toBool]

theorem writeVarList_isOk (l : List GLSLVariable) :
    (writeVarList l).isOk = !anyWriterFault l := by
  cases l with
  | nil => rfl
  | cons v vs =>
    have h1 := writeVariable_isOk v
    have h2 := writeVarList_isOk vs
    cases hv : writeVariable v with
    | error e =>
      rw [hv] at h1
      simp only [Except.isOk, Except.toBool, Bool.false_eq, Bool.not_eq_false] at h1
      simp [writeVarList, hv, h1, bind, Except.bind, pure, Except.pure,
        Except.isOk, Except.toBool, anyWriterFault]
    | ok s =>
      rw [hv] at h1
      simp only [Except.isOk, Except.toBool, Bool.true_eq, Bool.not_eq_true] at h1
      cases hl : writeVarList vs with
      | error e =>
        rw [hl] at h2
        simp only [Except.isOk, Except.toBool, Bool.false_eq, Bool.not_eq_false] at h2
        simp [writeVarList, hv, hl, h1, h2, bind, Except.bind, pure, Except.pure,
          Except.isOk, Except.toBool, anyWriterFault]
      | ok rest =>
        rw [hl] at h2
        simp only [Except.isOk, Except.toBool, Bool.true_eq, Bool.not_eq_true] at h2
        simp [writeVarList, hv, hl, h1, h2, bind, Except.bind, pure, Except.pure,
          Except.isOk, Except.toBool, anyWriterFault]

end

theorem exists_error_of_isOk_false {α : Type} {x : Except GenError α}
    (h : x.isOk = false) : ∃ e, x = Except.error e := by
  cases x with
  | error e => exact ⟨e, rfl⟩
  | ok a => simp [Except.isOk, Except.toBool] at h

theorem anyWriterFault_of_mem {v : GLSLVariable} {l : List GLSLVariable}
    (hm : v ∈ l) (hf : hasWriterFault v = true) : anyWriterFault l = true := by
  induction l with
  | nil => cases hm
  | cons a t ih =>
    rcases List.mem_cons.mp hm with h | h
    · subst h
      simp [anyWriterFault, hf]
    · simp [anyWriterFault, ih h]

theorem writeVarList_error_of_mem {v : GLSLVariable} {l : List GLSLVariable}
    (hm : v ∈ l) (hf : hasWriterFault v = true) :
    ∃ e, writeVarList l = Except.error e := by
  apply exists_error_of_isOk_false
  rw [writeVarList_isOk, anyWriterFault_of_mem hm hf]
  rfl

theorem writeInterface_error_of_mem {v : GLSLVariable} {l : List GLSLVariable}
    (hm : v ∈ l) (hf : hasWriterFault v = true) (name : String) (ex : Bool) :
    ∃ e, writeInterface name l ex = Except.error e := by
  obtain ⟨e, he⟩ := writeVarList_error_of_mem hm hf
  have hne : l.isEmpty = false := by
    cases l with
    | nil => cases hm
    | cons a t => rfl
  exact ⟨e, by simp [writeInterface, hne, he, bind, Except.bind]⟩

theorem exists_fault_of_any {l : List GLSLVariable}
    (h : anyWriterFault l = true) : ∃ m ∈ l, hasWriterFault m = true := by
  induction l with
  | nil => simp [anyWriterFault] at h
  | cons a t ih =>
    simp only [anyWriterFault, Bool.or_eq_true] at h
    rcases h with h | h
    · exact ⟨a, List.mem_cons_self a t, h⟩
    · obtain ⟨m, hm, hfm⟩ := ih h
      exact ⟨m, List.mem_cons_of_mem a hm, hfm⟩

theorem structMap_error_of_fault {v : GLSLVariable} {l : List GLSLVariable}
    (hm : v ∈ l) (hf : anyWriterFault v.block = true) :
    ∃ e, structMap l = Except.error e := by
  induction l with
  | nil => cases hm
  | cons a t ih =>
    rcases List.mem_cons.mp hm with h | h
    · subst h
      obtain ⟨m, hmem, hfm⟩ := exists_fault_of_any hf
      cases hc : capitalize v.name with
      | error e => exact ⟨e, by simp [structMap, hc, bind, Except.bind]⟩
      | ok n =>
        obtain ⟨e, he⟩ := writeInterface_error_of_mem hmem hfm n false
        exact ⟨e, by simp [structMap, hc, he, bind, Except.bind]⟩
    · obtain ⟨e, he⟩ := ih h
      cases hc : capitalize a.name with
      | error e2 => exact ⟨e2, by simp [structMap, hc, bind, Except.bind]⟩
      | ok n =>
        cases hw : writeInterface n a.block false with
        | error e2 => exact ⟨e2, by simp [structMap, hc, hw, bind, Except.bind]⟩
        | ok p => exact ⟨e, by simp [structMap, hc, hw, he, bind, Except.bind]⟩

theorem structStage_error_of_fault {v : GLSLVariable} {vars : List GLSLVariable}
    (hm : v ∈ vars) (hq : v.qualifier = "struct") (hf : anyWriterFault v.block = true) :
    ∃ e, structStage vars = Except.error e := by
  have hmem : v ∈ vars.filter (fun v => v.qualifier == "struct") := by
    rw [List.mem_filter]
    exact ⟨hm, by simp [hq]⟩
  exact structMap_error_of_fault hmem hf

theorem generate_error_of_stage {vars : List GLSLVariable} {ns : String} {cfg : Config}
    (h : (∃ e, structStage vars = Except.error e)
      ∨ (∃ e, writeInterface cfg.inputsInterfaceName (vars.filter isInputVariable) true
            = Except.error e)
      ∨ (∃ e, writeInterface cfg.outputsInterfaceName (vars.filter isOutputVariable) true
            = Except.error e)) :
    ∃ e, generate vars ns cfg = Except.error e := by
  rw [generate_bind_form]
  rcases h with ⟨e, he⟩ | ⟨e, he⟩ | ⟨e, he⟩
  · exact ⟨e, by simp [he, Except.bind]⟩
  · cases hs : structStage vars with
    | error e2 => exact ⟨e2, by simp [hs, Except.bind]⟩
    | ok sT => exact ⟨e, by simp [hs, he, Except.bind]⟩
  · cases hs : structStage vars with
    | error e2 => exact ⟨e2, by simp [hs, Except.bind]⟩
    | ok sT =>
      cases hi : writeInterface cfg.inputsInterfaceName (vars.filter isInputVariable) true with
      | error e2 => exact ⟨e2, by simp [hs, hi, Except.bind]⟩
      | ok ip => exact ⟨e, by simp [hs, hi, he, Except.bind]⟩

theorem shape_if_eq (amount : Nat) (base : String) (h : 1 ≤ amount) :
    (if amount > 1 then
       (if amount < 5 then "[" ++ joinSep "," (List.replicate amount base) ++ "]"
        else base ++ "[]")
     else base)
    = (if amount = 1 then base
       else if amount < 5 then "[" ++ joinSep "," (List.replicate amount base) ++ "]"
       else base ++ "[]") := by
  rcases Nat.eq_or_lt_of_le h with h1 | h1
  · simp [← h1]
  · have h2 : amount ≠ 1 := by omega
    simp [h1, h2]

theorem assemble_flat (vars : List GLSLVariable) (ns : String) (cfg : Config)
    (sT : List String) (itext otext : String) :
    assemble vars ns cfg sT itext otext =
      "\nnamespace " ++ ns ++ " \x7b\n"
        ++ joinSep "\n" sT ++ itext ++ otext
        ++ "\nexport interface " ++ cfg.interfaceName ++ " extends "
        ++ cfg.inputsInterfaceName ++ "," ++ cfg.outputsInterfaceName ++ " \x7b\x7d"
        ++ (if cfg.generateParseResult then
              "\nexport const vars = " ++ jsonStringify vars ++ ";\n" else "")
        ++ (if cfg.generateGLSLTypes then glslTypes else "")
        ++ "\n\x7d" := by
  unfold assemble
  cases hp : cfg.generateParseResult <;> cases hg : cfg.generateGLSLTypes <;>
    · apply String.ext
      simp [String.data_append, List.append_assoc]

theorem generate_ok_decomp {vars : List GLSLVariable} {ns : String} {cfg : Config}
    {s : String} (h : generate vars ns cfg = Except.ok s) :
    ∃ sT ip op,
      structStage vars = Except.ok sT
      ∧ writeInterface cfg.inputsInterfaceName (vars.filter isInputVariable) true
          = Except.ok ip
      ∧ writeInterface cfg.outputsInterfaceName (vars.filter isOutputVariable) true
          = Except.ok op
      ∧ s = "\nnamespace " ++ ns ++ " \x7b\n"
          ++ joinSep "\n" sT ++ ip.2 ++ op.2
          ++ "\nexport interface " ++ cfg.interfaceName ++ " extends "
          ++ cfg.inputsInterfaceName ++ "," ++ cfg.outputsInterfaceName ++ " \x7b\x7d"
          ++ (if cfg.generateParseResult then
                "\nexport const vars = " ++ jsonStringify vars ++ ";\n" else "")
          ++ (if cfg.generateGLSLTypes then glslTypes else "")
          ++ "\n\x7d" := by
  rw [generate_bind_form] at h
  cases hs : structStage vars with
  | error e => rw [hs] at h; cases h
  | ok sT =>
    rw [hs] at h
    cases hi : writeInterface cfg.inputsInterfaceName (vars.filter isInputVariable) true with
    | error e => rw [hi] at h; cases h
    | ok ip =>
      rw [hi] at h
      cases ho : writeInterface cfg.outputsInterfaceName (vars.filter isOutputVariable) true with
      | error e => rw [ho] at h; cases h
      | ok op =>
        rw [ho] at h
        simp only [Except.bind, Except.ok.injEq] at h
        exact ⟨sT, ip, op, rfl, rfl, rfl, by rw [← h, assemble_flat]⟩

theorem writeInterface_ok_of_nonempty {l : List GLSLVariable} {lines : List String}
    (hne : l.isEmpty = false) (hw : writeVarList l = Except.ok lines)
    (name : String) (ex : Bool) :
    writeInterface name l ex
      = Except.ok ([], "\n" ++ (if ex then "export " else "") ++ "interface " ++ name
          ++ " \x7b\n\t" ++ joinSep "\n\t" lines ++ "\n\x7d") := by
  simp [writeInterface, hne, hw, bind, Except.bind, pure, Except.pure]

theorem structMap_forall2 {l : List GLSLVariable} {sT : List String}
    (h : structMap l = Except.ok sT) (hblk : ∀ v ∈ l, v.block.isEmpty = false) :
    List.Forall₂ (fun (str : GLSLVariable) (frag : String) =>
      ∃ capName lines,
        capitalize str.name = Except.ok capName
        ∧ writeVarList str.block = Except.ok lines
        ∧ frag = "\ninterface " ++ capName ++ " \x7b\n\t"
            ++ joinSep "\n\t" lines ++ "\n\x7d") l sT := by
  induction l generalizing sT with
  | nil =>
    cases h
    exact List.Forall₂.nil
  | cons a t ih =>
    cases hc : capitalize a.name with
    | error e => simp [structMap, hc, bind, Except.bind] at h
    | ok n =>
      have hane : a.block.isEmpty = false := hblk a (List.mem_cons_self a t)
      cases hwl : writeVarList a.block with
      | error e =>
        have : writeInterface n a.block false = Except.error e := by
          simp [writeInterface, hane, hwl, bind, Except.bind]
        simp [structMap, hc, this, bind, Except.bind] at h
      | ok lines =>
        have hwi := writeInterface_ok_of_nonempty hane hwl n false
        cases hrest : structMap t with
        | error e => simp [structMap, hc, hwi, hrest, bind, Except.bind] at h
        | ok rest =>
          have hfrag : sT = ("\n" ++ (if false then "export " else "") ++ "interface " ++ n
              ++ " \x7b\n\t" ++ joinSep "\n\t" lines ++ "\n\x7d") :: rest := by
            simp [structMap, hc, hwi, hrest, bind, Except.bind, pure, Except.pure] at h
            exact h.symm
          subst hfrag
          refine List.Forall₂.cons ⟨n, lines, hc, hwl, ?_⟩ (ih hrest (fun v hv => hblk v (List.mem_cons_of_mem a hv)))
          apply String.ext
          simp [String.data_append, List.append_assoc]

/-- Claim C1: for every valid descriptor (array length at least 1) whose line is
written successfully, the Declaration Writer shapes the type by the array
length exactly as specified: length 1 leaves the base type unchanged, lengths
2 to 4 repeat the base type comma-joined inside square brackets, and length 5
or more appends `[]` to the base type. -/
theorem writeVariable_shapes (v : GLSLVariable) (line : String)
    (hamount : 1 ≤ v.amount) (hok : writeVariable v = Except.ok line) :
    ∃ base,
      line = v.name ++ ": " ++
        (if v.amount = 1 then base
         else if v.amount < 5 then "[" ++ joinSep "," (List.replicate v.amount base) ++ "]"
         else base ++ "[]") ++ ";"
      ∧ (v.type ≠ "struct" → v.type ≠ "block" → base = v.type)
      ∧ (v.type = "struct" → base = v.structName) := by
  cases v with
  | mk name q ty amount sName blk =>
    simp only [GLSLVariable.name, GLSLVariable.type, GLSLVariable.amount,
      GLSLVariable.structName, GLSLVariable.block] at *
    by_cases h1 : ty == "struct"
    · have hty : ty = "struct" := eq_of_beq h1
      subst hty
      by_cases h2 : sName == ""
      · have hko := writeVariable_isOk (.mk name q "struct" amount sName blk)
        rw [hok] at hko
        simp [Except.isOk, Except.toBool, hasWriterFault, h2] at hko
      · simp [writeVariable, h2, bind, Except.bind, pure, Except.pure] at hok
        refine ⟨sName, ?_, ?_, ?_⟩
        · rw [← shape_if_eq amount sName hamount]
          exact hok.symm
        · intro hc; exact absurd rfl hc
        · intro _; rfl
    · by_cases h3 : ty == "block"
      · have hty : ty = "block" := eq_of_beq h3
        subst hty
        by_cases h4 : blk.isEmpty
        · simp [writeVariable, h1, h4, bind, Except.bind, pure, Except.pure] at hok
        · cases hwl : writeVarList blk with
          | error e =>
            simp [writeVariable, h1, h4, hwl, bind, Except.bind, pure, Except.pure] at hok
          | ok lines =>
            simp [writeVariable, h1, h4, hwl, bind, Except.bind, pure, Except.pure] at hok
            refine ⟨"\x7b " ++ joinSep " " lines ++ " \x7d", ?_, ?_, ?_⟩
            · rw [← shape_if_eq amount _ hamount]
              exact hok.symm
            · intro _ hc; exact absurd rfl hc
            · intro hc; exact absurd hc (by simp)
      · simp [writeVariable, h1, h3, bind, Except.bind, pure, Except.pure] at hok
        refine ⟨ty, ?_, ?_, ?_⟩
        · rw [← shape_if_eq amount ty hamount]
          exact hok.symm
        · intro _ _; rfl
        · intro hc
          exact absurd (by simp [hc]) h1

theorem writeVariable_shapes_witness :
    1 ≤ (GLSLVariable.mk "a_position" "in" "vec4" 4 "" []).amount
    ∧ ∃ base, "a_position: [vec4,vec4,vec4,vec4];"
        = (GLSLVariable.mk "a_position" "in" "vec4" 4 "" []).name ++ ": " ++
          (if (GLSLVariable.mk "a_position" "in" "vec4" 4 "" []).amount = 1 then base
           else if (GLSLVariable.mk "a_position" "in" "vec4" 4 "" []).amount < 5 then
             "[" ++ joinSep ","
               (List.replicate (GLSLVariable.mk "a_position" "in" "vec4" 4 "" []).amount base)
               ++ "]"
           else base ++ "[]") ++ ";"
        ∧ ((GLSLVariable.mk "a_position" "in" "vec4" 4 "" []).type ≠ "struct" →
            (GLSLVariable.mk "a_position" "in" "vec4" 4 "" []).type ≠ "block" →
            base = (GLSLVariable.mk "a_position" "in" "vec4" 4 "" []).type)
        ∧ ((GLSLVariable.mk "a_position" "in" "vec4" 4 "" []).type = "struct" →
            base = (GLSLVariable.mk "a_position" "in" "vec4" 4 "" []).structName) :=
  ⟨by decide,
   writeVariable_shapes (GLSLVariable.mk "a_position" "in" "vec4" 4 "" [])
     "a_position: [vec4,vec4,vec4,vec4];" (by decide) rfl⟩

/-- Claim C2: the Declaration Writer fails exactly when the descriptor or a
nested member is struct-typed without a struct alias or block-typed without a
non-empty member list, and any such failure inside a written partition makes
the whole `generate` call return an error instead of any output. -/
theorem writer_fails_iff_and_propagates :
    (∀ v : GLSLVariable, (writeVariable v).isOk = !hasWriterFault v)
    ∧ (∀ (vars : List GLSLVariable) (ns : String) (cfg : Config) (v : GLSLVariable),
        v ∈ vars →
        (((isInputVariable v = true ∨ isOutputVariable v = true) ∧ hasWriterFault v = true)
          ∨ (v.qualifier = "struct" ∧ anyWriterFault v.block = true)) →
        ∃ e, generate vars ns cfg = Except.error e) := by
  constructor
  · exact writeVariable_isOk
  · intro vars ns cfg v hm hcase
    rcases hcase with ⟨hio, hf⟩ | ⟨hq, hf⟩
    · rcases hio with hin | hout
      · exact generate_error_of_stage (Or.inr (Or.inl
          (writeInterface_error_of_mem (List.mem_filter.mpr ⟨hm, hin⟩) hf _ _)))
      · exact generate_error_of_stage (Or.inr (Or.inr
          (writeInterface_error_of_mem (List.mem_filter.mpr ⟨hm, hout⟩) hf _ _)))
    · exact generate_error_of_stage (Or.inl (structStage_error_of_fault hm hq hf))

theorem writer_fails_iff_and_propagates_witness :
    ((writeVariable badStructVar).isOk = !hasWriterFault badStructVar)
    ∧ (∃ e, generate [badStructVar] "NS" cfgNoExtras = Except.error e) :=
  ⟨writer_fails_iff_and_propagates.1 badStructVar,
   writer_fails_iff_and_propagates.2 [badStructVar] "NS" cfgNoExtras badStructVar
     (List.mem_singleton.mpr rfl) (Or.inl ⟨Or.inl rfl, rfl⟩)⟩

/-- Claim C3, counterexample: a descriptor whose role is `uniform` (not `in`)
contributes its line to the generated inputs interface, even though the input
list contains no `in`-role descriptor at all. -/
theorem inputs_role_only_counterexample :
    uniformSamplerVar.qualifier = "uniform"
    ∧ [uniformSamplerVar].filter (fun v => v.qualifier == "in") = []
    ∧ generate [uniformSamplerVar] "S" cfgNoExtras
        = Except.ok "\nnamespace S \x7b\n\nexport interface Inputs \x7b\n\tu_texture: sampler2D;\n\x7d\nexport interface Variables extends Inputs,Outputs \x7b\x7d\n\x7d"
    ∧ strContains
        "\nnamespace S \x7b\n\nexport interface Inputs \x7b\n\tu_texture: sampler2D;\n\x7d\nexport interface Variables extends Inputs,Outputs \x7b\x7d\n\x7d"
        "u_texture: sampler2D;" :=
  ⟨rfl, rfl, rfl, by unfold strContains; decide⟩

/-- Claim C3, amended: the exported inputs interface is assembled from
exactly the descriptors passing the parser input predicate - role `in` or
role `uniform` - in input order, and `out`- or `struct`-role descriptors
never contribute to it. -/
theorem inputs_interface_from_parser_input_predicate :
    ∀ (vars : List GLSLVariable) (ns : String) (cfg : Config) (s : String),
      generate vars ns cfg = Except.ok s →
      ∃ ip pre post,
        writeInterface cfg.inputsInterfaceName
            (vars.filter (fun v => v.qualifier == "in" || v.qualifier == "uniform")) true
          = Except.ok ip
        ∧ s = pre ++ ip.2 ++ post
        ∧ (∀ v ∈ vars, (v.qualifier = "out" ∨ v.qualifier = "struct") →
            isInputVariable v = false) := by
  intro vars ns cfg s h
  obtain ⟨sT, ip, op, hs, hi, ho, hseq⟩ := generate_ok_decomp h
  refine ⟨ip, "\nnamespace " ++ ns ++ " \x7b\n" ++ joinSep "\n" sT,
    op.2 ++ "\nexport interface " ++ cfg.interfaceName ++ " extends "
      ++ cfg.inputsInterfaceName ++ "," ++ cfg.outputsInterfaceName ++ " \x7b\x7d"
      ++ (if cfg.generateParseResult then
            "\nexport const vars = " ++ jsonStringify vars ++ ";\n" else "")
      ++ (if cfg.generateGLSLTypes then glslTypes else "")
      ++ "\n\x7d", hi, ?_, ?_⟩
  · rw [hseq]
    apply String.ext
    simp [String.data_append, List.append_assoc]
  · intro v hv hq
    rcases hq with hq | hq <;> simp [isInputVariable, hq]

theorem inputs_interface_from_parser_input_predicate_witness :
    ∃ ip pre post,
      writeInterface "Inputs"
          ([uniformSamplerVar].filter (fun v => v.qualifier == "in" || v.qualifier == "uniform")) true
        = Except.ok ip
      ∧ "\nnamespace S \x7b\n\nexport interface Inputs \x7b\n\tu_texture: sampler2D;\n\x7d\nexport interface Variables extends Inputs,Outputs \x7b\x7d\n\x7d"
          = pre ++ ip.2 ++ post
      ∧ (∀ v ∈ [uniformSamplerVar], (v.qualifier = "out" ∨ v.qualifier = "struct") →
          isInputVariable v = false) :=
  inputs_interface_from_parser_input_predicate [uniformSamplerVar] "S" cfgNoExtras
    "\nnamespace S \x7b\n\nexport interface Inputs \x7b\n\tu_texture: sampler2D;\n\x7d\nexport interface Variables extends Inputs,Outputs \x7b\x7d\n\x7d"
    rfl

/-- Claim C4, counterexample: a valid block-typed descriptor with array
length 2 is written as a tuple of brace-wrapped blocks, not as a single
brace-wrapped member list. -/
theorem block_array_shaping_counterexample :
    blockArrayVar.type = "block"
    ∧ writeVariable blockArrayVar
        = Except.ok "m: [\x7b x: float; \x7d,\x7b x: float; \x7d];"
    ∧ ¬("m: [\x7b x: float; \x7d,\x7b x: float; \x7d];" = "m: \x7b x: float; \x7d;") :=
  ⟨rfl, rfl, by decide⟩

/-- Claim C4, amended: for every valid block-typed descriptor with array
length 1, the written line is the name, a colon and a space, the recursively
written member lines joined by single spaces and wrapped in braces, then a
semicolon; for larger array lengths the brace-wrapped type additionally
undergoes the array shaping of the Writer. -/
theorem block_line_shape_when_not_array :
    ∀ (v : GLSLVariable) (lines : List String),
      v.type = "block" → v.amount = 1 → v.block.isEmpty = false →
      writeVarList v.block = Except.ok lines →
      writeVariable v
        = Except.ok (v.name ++ ": " ++ ("\x7b " ++ joinSep " " lines ++ " \x7d") ++ ";") := by
  intro v lines hty hamt hne hwl
  cases v with
  | mk name q ty amount sName blk =>
    simp only [GLSLVariable.name, GLSLVariable.type, GLSLVariable.amount,
      GLSLVariable.block] at *
    subst hty hamt
    simp [writeVariable, hne, hwl, bind, Except.bind, pure, Except.pure]

theorem block_line_shape_when_not_array_witness :
    writeVariable (.mk "Matrices" "uniform" "block" 1 ""
        [.mk "projection" "" "mat4" 1 "" [], .mk "view" "" "mat4" 1 "" []])
      = Except.ok ("Matrices" ++ ": "
          ++ ("\x7b " ++ joinSep " " ["projection: mat4;", "view: mat4;"] ++ " \x7d") ++ ";") :=
  block_line_shape_when_not_array
    (.mk "Matrices" "uniform" "block" 1 ""
      [.mk "projection" "" "mat4" 1 "" [], .mk "view" "" "mat4" 1 "" []])
    ["projection: mat4;", "view: mat4;"] rfl rfl rfl rfl

/-- Claim C5: every successful `generate` output contains the aggregate
interface with the literal shape
`interface <interfaceName> extends <inputsInterfaceName>,<outputsInterfaceName> \x7b\x7d`
with no member declarations inside its braces. -/
theorem aggregate_interface_literal_shape :
    ∀ (vars : List GLSLVariable) (ns : String) (cfg : Config) (s : String),
      generate vars ns cfg = Except.ok s →
      strContains s ("interface " ++ cfg.interfaceName ++ " extends "
        ++ cfg.inputsInterfaceName ++ "," ++ cfg.outputsInterfaceName ++ " \x7b\x7d") := by
  intro vars ns cfg s h
  obtain ⟨sT, ip, op, hs, hi, ho, hseq⟩ := generate_ok_decomp h
  subst hseq
  refine ⟨("\nnamespace " ++ ns ++ " \x7b\n" ++ joinSep "\n" sT ++ ip.2 ++ op.2
      ++ "\nexport ").data,
    ((if cfg.generateParseResult then
        "\nexport const vars = " ++ jsonStringify vars ++ ";\n" else "")
      ++ (if cfg.generateGLSLTypes then glslTypes else "") ++ "\n\x7d").data, ?_⟩
  rw [show ("\nexport interface " : String) = "\nexport " ++ "interface " from rfl]
  simp [String.data_append, List.append_assoc]

theorem aggregate_interface_literal_shape_witness :
    strContains "\nnamespace S \x7b\n\nexport interface Variables extends Inputs,Outputs \x7b\x7d\n\x7d"
      ("interface " ++ "Variables" ++ " extends " ++ "Inputs" ++ "," ++ "Outputs" ++ " \x7b\x7d") :=
  aggregate_interface_literal_shape [] "S" cfgNoExtras
    "\nnamespace S \x7b\n\nexport interface Variables extends Inputs,Outputs \x7b\x7d\n\x7d" rfl

/-- Claim C6, counterexample: the diagnostic emitted for an empty interface
partition reads `The interface <name> has no variables set` and the text
`interface <name> has no members` claimed by the spec is not among the
emitted diagnostics. -/
theorem empty_interface_diagnostic_counterexample :
    writeInterface "Inputs" [] true
      = Except.ok (["The interface Inputs has no variables set"], "")
    ∧ ¬("interface Inputs has no members" ∈ ["The interface Inputs has no variables set"]) :=
  ⟨rfl, by decide⟩

/-- Claim C6, amended: an empty or null descriptor list makes the Interface
Assembler return the empty string after printing
`The interface <name> has no variables set` to the console - the message is
written to the console log, not returned to the caller of `generate` - and
generation continues, with the whole call still succeeding. -/
theorem empty_interface_warns_and_continues :
    ∀ (name : String) (isExport : Bool) (ns : String) (cfg : Config),
      writeInterface name [] isExport
        = Except.ok (["The interface " ++ name ++ " has no variables set"], "")
      ∧ (∃ s, generate [] ns cfg = Except.ok s) := by
  intro name ex ns cfg
  exact ⟨rfl, ⟨_, rfl⟩⟩

/-- Claim C7: for every successful `generate` run in which each struct-role
descriptor has members, the output starts with the struct catalog: one
non-exported interface per struct-role descriptor, named by capitalizing the
descriptor name, whose body is the written member lines, in the order the
struct descriptors appear in the input list. -/
theorem struct_catalog_order_and_shape :
    ∀ (vars : List GLSLVariable) (ns : String) (cfg : Config) (s : String),
      generate vars ns cfg = Except.ok s →
      (∀ v ∈ vars, v.qualifier = "struct" → v.block.isEmpty = false) →
      ∃ sT rest,
        structStage vars = Except.ok sT
        ∧ s = "\nnamespace " ++ ns ++ " \x7b\n" ++ joinSep "\n" sT ++ rest
        ∧ List.Forall₂ (fun (str : GLSLVariable) (frag : String) =>
            ∃ capName lines,
              capitalize str.name = Except.ok capName
              ∧ writeVarList str.block = Except.ok lines
              ∧ frag = "\ninterface " ++ capName ++ " \x7b\n\t"
                  ++ joinSep "\n\t" lines ++ "\n\x7d")
            (vars.filter (fun v => v.qualifier == "struct")) sT := by
  intro vars ns cfg s h hblk
  obtain ⟨sT, ip, op, hs, hi, ho, hseq⟩ := generate_ok_decomp h
  refine ⟨sT,
    ip.2 ++ op.2 ++ "\nexport interface " ++ cfg.interfaceName ++ " extends "
      ++ cfg.inputsInterfaceName ++ "," ++ cfg.outputsInterfaceName ++ " \x7b\x7d"
      ++ (if cfg.generateParseResult then
            "\nexport const vars = " ++ jsonStringify vars ++ ";\n" else "")
      ++ (if cfg.generateGLSLTypes then glslTypes else "")
      ++ "\n\x7d", hs, ?_, ?_⟩
  · rw [hseq]
    apply String.ext
    simp [String.data_append, List.append_assoc]
  · apply structMap_forall2 hs
    intro v hv
    have hmem := List.mem_filter.mp hv
    exact hblk v hmem.1 (eq_of_beq hmem.2)

theorem struct_catalog_order_and_shape_witness :
    ∃ sT rest,
      structStage [materialStruct] = Except.ok sT
      ∧ "\nnamespace S \x7b\n\ninterface Material \x7b\n\tambient: vec3;\n\x7d\nexport interface Variables extends Inputs,Outputs \x7b\x7d\n\x7d"
          = "\nnamespace " ++ "S" ++ " \x7b\n" ++ joinSep "\n" sT ++ rest
      ∧ List.Forall₂ (fun (str : GLSLVariable) (frag : String) =>
          ∃ capName lines,
            capitalize str.name = Except.ok capName
            ∧ writeVarList str.block = Except.ok lines
            ∧ frag = "\ninterface " ++ capName ++ " \x7b\n\t"
                ++ joinSep "\n\t" lines ++ "\n\x7d")
          ([materialStruct].filter (fun v => v.qualifier == "struct")) sT :=
  struct_catalog_order_and_shape [materialStruct] "S" cfgNoExtras
    "\nnamespace S \x7b\n\ninterface Material \x7b\n\tambient: vec3;\n\x7d\nexport interface Variables extends Inputs,Outputs \x7b\x7d\n\x7d"
    rfl
    (by
      intro v hv hq
      cases List.mem_singleton.mp hv
      rfl)

/-- Claim C8: on every non-empty string, `capitalize` upper-cases exactly the
first character and leaves the remainder unchanged. -/
theorem capitalize_uppercases_head :
    ∀ (w : String) (c : Char) (rest : List Char),
      w.data = c :: rest →
      capitalize w = Except.ok (String.mk (Char.toUpper c :: rest)) := by
  intro w c rest h
  simp [capitalize, h]

theorem capitalize_uppercases_head_witness :
    ("material" : String).data = 'm' :: ("aterial" : String).data
    ∧ capitalize "material" = Except.ok (String.mk (Char.toUpper 'm' :: ("aterial" : String).data)) :=
  ⟨rfl, capitalize_uppercases_head "material" 'm' ("aterial" : String).data rfl⟩

/-- Claim C9: every successful `generate` output is the namespace block
wrapping, in this fixed order: the struct interfaces, the inputs interface,
the outputs interface, the aggregate interface, the serialized original
descriptor list as an exported constant when `generateParseResult` is set,
and the fixed base-type catalog when `generateGLSLTypes` is set. -/
theorem generate_layout :
    ∀ (vars : List GLSLVariable) (ns : String) (cfg : Config) (s : String),
      generate vars ns cfg = Except.ok s →
      ∃ sT ip op,
        structStage vars = Except.ok sT
        ∧ writeInterface cfg.inputsInterfaceName (vars.filter isInputVariable) true
            = Except.ok ip
        ∧ writeInterface cfg.outputsInterfaceName (vars.filter isOutputVariable) true
            = Except.ok op
        ∧ s = "\nnamespace " ++ ns ++ " \x7b\n"
            ++ joinSep "\n" sT ++ ip.2 ++ op.2
            ++ "\nexport interface " ++ cfg.interfaceName ++ " extends "
            ++ cfg.inputsInterfaceName ++ "," ++ cfg.outputsInterfaceName ++ " \x7b\x7d"
            ++ (if cfg.generateParseResult then
                  "\nexport const vars = " ++ jsonStringify vars ++ ";\n" else "")
            ++ (if cfg.generateGLSLTypes then glslTypes else "")
            ++ "\n\x7d" := by
  intro vars ns cfg s h
  exact generate_ok_decomp h

theorem generate_layout_witness :
    ∃ sT ip op,
      structStage [] = Except.ok sT
      ∧ writeInterface "Inputs" (List.filter isInputVariable []) true = Except.ok ip
      ∧ writeInterface "Outputs" (List.filter isOutputVariable []) true = Except.ok op
      ∧ "\nnamespace S \x7b\n\nexport interface Variables extends Inputs,Outputs \x7b\x7d\n\x7d"
          = "\nnamespace " ++ "S" ++ " \x7b\n"
            ++ joinSep "\n" sT ++ ip.2 ++ op.2
            ++ "\nexport interface " ++ "Variables" ++ " extends "
            ++ "Inputs" ++ "," ++ "Outputs" ++ " \x7b\x7d"
            ++ (if cfgNoExtras.generateParseResult then
                  "\nexport const vars = " ++ jsonStringify [] ++ ";\n" else "")
            ++ (if cfgNoExtras.generateGLSLTypes then glslTypes else "")
            ++ "\n\x7d" :=
  generate_layout [] "S" cfgNoExtras
    "\nnamespace S \x7b\n\nexport interface Variables extends Inputs,Outputs \x7b\x7d\n\x7d" rfl

/-- Claim C10: `capitalize` reads index 0 of its argument, so an empty-named
struct-role descriptor makes `generate` fail with the modelled `TypeError` -
an error outside the spec error taxonomy - and `capitalize` succeeds exactly
on non-empty strings. -/
theorem capitalize_empty_name_fails :
    capitalize "" = Except.error GenError.jsTypeError
    ∧ generate [emptyNameStruct] "NS" cfgNoExtras = Except.error GenError.jsTypeError
    ∧ (∀ w : String, w ≠ "" → ∃ s, capitalize w = Except.ok s) := by
  refine ⟨rfl, rfl, ?_⟩
  intro w hw
  cases hdata : w.data with
  | nil => exact absurd (String.ext hdata) hw
  | cons c rest => exact ⟨String.mk (Char.toUpper c :: rest), by simp [capitalize, hdata]⟩

theorem capitalize_empty_name_fails_witness :
    capitalize "" = Except.error GenError.jsTypeError
    ∧ ¬("material" : String) = ""
    ∧ (∃ s, capitalize "material" = Except.ok s) :=
  ⟨capitalize_empty_name_fails.1, by decide,
   capitalize_empty_name_fails.2.2 "material" (by decide)⟩

